import Mathlib

/-!
# Verification of the GlycoOptimizer model-system core

Shallow embedding of `src/ProcessOptimizer/model_systems/model_system.py`
and of the noise-model subsystem it uses
(`ProcessOptimizer/model_systems/noise_models.py`, whose source is not in
the repository snapshot; those parts are modelled from the spec and marked
as such in their doc comments).

Python floats are modelled as `ℚ`; evaluation contexts (points in the
parameter space) are a type parameter `α`; external randomness is made
explicit: zero-argument sampling functions become `Unit → ℚ`, the external
normal-distribution primitive becomes a parameter `draw : ℚ → Unit → ℚ`
(spread ↦ sampler), and the stochastic Latin-hypercube sampler of the
external space object threads an explicit generator state `σ`.
-/

namespace GlycoOptimizer

/-- Error taxonomy of the spec: `ConfigurationError` for malformed or
unrecognized noise-model specifications, `InstantiationError` for
constructing the abstract `NoiseModel` capability directly. -/
inductive NoiseError where
  | configurationError
  | instantiationError
deriving DecidableEq, Repr

/-- Modelled from the spec: the `NoiseModel` hierarchy of the missing
`noise_models.py` (abstract capability with concrete variants Zero,
Additive, Multiplicative, DataDependent).  `Additive`/`Multiplicative`
own a zero-argument noise-sampling function (`noise_dist`);
`DataDependent` owns a selector mapping a context to a noise model. -/
inductive NoiseModel (α : Type) where
  | zero : NoiseModel α
  | additive (noise_dist : Unit → ℚ) : NoiseModel α
  | multiplicative (noise_dist : Unit → ℚ) : NoiseModel α
  | dataDependent (noise_models : α → NoiseModel α) : NoiseModel α

/-- Modelled from the spec: the noise component produced for a call
`(X, signal)`, i.e. what `noise_models.py`'s `get_noise` returns
(the spec's variant algorithms give `apply = signal + noise`, so the
noise is `0`, `sample()`, `signal * sample()`, or the delegate's noise). -/
def NoiseModel.get_noise {α : Type} : NoiseModel α → α → ℚ → ℚ
  | .zero, _, _ => 0
  | .additive noise_dist, _, _ => noise_dist ()
  | .multiplicative noise_dist, _, signal => signal * noise_dist ()
  | .dataDependent noise_models, X, signal =>
      (noise_models X).get_noise X signal

/-- Modelled from the spec: `apply(context, signal) -> perturbed_signal`.
Zero: identity.  Additive: `signal + sample()`.  Multiplicative:
`signal * (1 + sample())`.  DataDependent: the selector is evaluated on
the context of every call and `apply` is delegated to the model it
returns. -/
def NoiseModel.apply {α : Type} : NoiseModel α → α → ℚ → ℚ
  | .zero, _, signal => signal
  | .additive noise_dist, _, signal => signal + noise_dist ()
  | .multiplicative noise_dist, _, signal => signal * (1 + noise_dist ())
  | .dataDependent noise_models, X, signal =>
      (noise_models X).apply X signal

/-- Modelled from the spec: the shapes a user-supplied noise specification
can take — an already-constructed model, a name string, a configuration
mapping with a `model_type` key plus optional extra keys (`noise_size`),
or any other (malformed) value. -/
inductive NoiseSpec (α : Type) where
  | model (m : NoiseModel α)
  | name (s : String)
  | mapping (model_type : String) (noise_size : Option ℚ)
  | other

/-- Modelled from the spec: `parse_noise_model(spec) -> NoiseModel` of the
missing `noise_models.py`.  A model instance passes through unchanged;
`"constant"` ↦ Additive (default spread 1), `"proportional"` ↦
Multiplicative (default relative spread 0.01), `"zero"` ↦ Zero; a mapping
constructs the named variant passing `noise_size` through; anything else
fails with `ConfigurationError`.  `draw spread` is the external
normal-distribution sampling primitive used for default noise sources. -/
def parse_noise_model {α : Type} (draw : ℚ → Unit → ℚ) :
    NoiseSpec α → Except NoiseError (NoiseModel α)
  | .model m => .ok m
  | .name s =>
      if s = "constant" then .ok (.additive (draw 1))
      else if s = "proportional" then .ok (.multiplicative (draw (1/100)))
      else if s = "zero" then .ok .zero
      else .error .configurationError
  | .mapping model_type noise_size =>
      if model_type = "constant" then
        .ok (.additive (draw (noise_size.getD 1)))
      else if model_type = "proportional" then
        .ok (.multiplicative (draw (noise_size.getD (1/100))))
      else if model_type = "zero" then .ok .zero
      else .error .configurationError
  | .other => .error .configurationError

/-- Modelled from the spec: the constructible noise-model classes of the
missing `noise_models.py`, including the abstract base `NoiseModel`
itself, as targets of a construction attempt. -/
inductive NoiseClass (α : Type) where
  | abstractNoiseModel
  | zeroNoise
  | additiveNoise (noise_dist : Unit → ℚ)
  | multiplicativeNoise (noise_dist : Unit → ℚ)
  | dataDependentNoise (noise_models : α → NoiseModel α)

/-- Modelled from the spec: constructing a noise-model class.  The bare
abstract `NoiseModel` capability fails immediately at construction with
`InstantiationError`; every concrete variant constructs successfully. -/
def instantiateNoiseClass {α : Type} :
    NoiseClass α → Except NoiseError (NoiseModel α)
  | .abstractNoiseModel => .error .instantiationError
  | .zeroNoise => .ok .zero
  | .additiveNoise noise_dist => .ok (.additive noise_dist)
  | .multiplicativeNoise noise_dist => .ok (.multiplicative noise_dist)
  | .dataDependentNoise noise_models => .ok (.dataDependent noise_models)

/-- The external parameter-space collaborator (spec §6): a normalized space
exposing `n_dims` and a Latin-hypercube sampling operation
`lhs(n) -> sequence of points`.  `lhs` is stochastic, so it threads an
explicit generator state `σ`. -/
structure Space (α σ : Type) where
  n_dims : ℕ
  lhs : ℕ → σ → List α × σ

/-- `np.min` over a list of scores.  `np.min` raises on an empty input;
the `[]` branch here is a placeholder never relied on by any theorem. -/
def np_min : List ℚ → ℚ
  | [] => 0
  | x :: xs => xs.foldl min x

/-- `np.max` over a list of scores.  `np.max` raises on an empty input;
the `[]` branch here is a placeholder never relied on by any theorem. -/
def np_max : List ℚ → ℚ
  | [] => 0
  | x :: xs => xs.foldl max x

/-- The external optimizer result object (spec §6): exposes an
"expected minimum" extraction producing `(location, value)`. -/
structure OptResult (α : Type) where
  expected_min_location : α
  expected_min_value : ℚ

/-- The external `ProcessOptimizer.expected_minimum` collaborator: extracts
the optimizer's reported expected minimum `(location, value)` from a
result object. -/
def expected_minimum {α : Type} (result : OptResult α) : α × ℚ :=
  (result.expected_min_location, result.expected_min_value)

/-- `ModelSystem`'s state after construction: the score function, the
normalized space, the parsed noise model, and the `true_min`/`true_max`
bounds (`model_system.py`, lines 44–58). -/
structure ModelSystem (α σ : Type) where
  score : α → ℚ
  space : Space α σ
  noise_model : NoiseModel α
  true_min : ℚ
  true_max : ℚ

/-- `ModelSystem.__init__` (`model_system.py`, lines 36–58).
`space_factory` is an external factory (spec §6) whose output is the
normalized `Space`; the model takes that output directly.  The noise spec
is parsed; then each bound left unspecified (`None`) is estimated by
drawing `n_dims * 10` points from one `lhs` call, scoring them
noiselessly, and taking `np.min` (resp. `np.max`); a supplied bound is
stored as given.  The generator state `rng` is threaded through the `lhs`
calls in program order and returned alongside the system. -/
def ModelSystem.init {α σ : Type} (draw : ℚ → Unit → ℚ) (score : α → ℚ)
    (space : Space α σ) (noise_model : NoiseSpec α)
    (true_min : Option ℚ) (true_max : Option ℚ) (rng : σ) :
    Except NoiseError (ModelSystem α σ × σ) := do
  let nm ← parse_noise_model draw noise_model
  let (tmin, rng) :=
    match true_min with
    | some v => (v, rng)
    | none =>
        let ndims := space.n_dims
        let (points, rng) := space.lhs (ndims * 10) rng
        let scores := points.map score
        (np_min scores, rng)
  let (tmax, rng) :=
    match true_max with
    | some v => (v, rng)
    | none =>
        let ndims := space.n_dims
        let (points, rng) := space.lhs (ndims * 10) rng
        let scores := points.map score
        (np_max scores, rng)
  pure (⟨score, space, nm, tmin, tmax⟩, rng)

/-- `ModelSystem.result_loss` (`model_system.py`, lines 61–81): the
noiseless score at the location of the expected minimum, minus
`true_min`. -/
def ModelSystem.result_loss {α σ : Type} (self : ModelSystem α σ)
    (result : OptResult α) : ℚ :=
  let model_x := (expected_minimum result).1
  self.score model_x - self.true_min

/-- `ModelSystem.get_score` (`model_system.py`, lines 83–96): the noisy
score `Y + noise_model.get_noise(X, Y)` where `Y = score(X)`. -/
def ModelSystem.get_score {α σ : Type} (self : ModelSystem α σ) (X : α) : ℚ :=
  let Y := self.score X
  Y + self.noise_model.get_noise X Y

/-- `ModelSystem.set_noise_model` (`model_system.py`, lines 98–120):
re-parse the spec and replace the stored noise model; a parse failure
propagates and leaves no system behind. -/
def ModelSystem.set_noise_model {α σ : Type} (draw : ℚ → Unit → ℚ)
    (self : ModelSystem α σ) (noise_model : NoiseSpec α) :
    Except NoiseError (ModelSystem α σ) := do
  let nm ← parse_noise_model draw noise_model
  pure { self with noise_model := nm }

/-! ## Helper lemmas -/

/-- The spec's per-variant `apply` algorithms decompose as the signal plus
the variant's noise component, uniformly over the hierarchy. -/
theorem NoiseModel.apply_eq_add_get_noise {α : Type} (nm : NoiseModel α)
    (X : α) (s : ℚ) : nm.apply X s = s + nm.get_noise X s := by
  induction nm with
  | zero => simp [NoiseModel.apply, NoiseModel.get_noise]
  | additive noise_dist => simp [NoiseModel.apply, NoiseModel.get_noise]
  | multiplicative noise_dist =>
      simp [NoiseModel.apply, NoiseModel.get_noise]; ring
  | dataDependent noise_models ih =>
      simp [NoiseModel.apply, NoiseModel.get_noise, ih]

/-! ## Claim theorems -/

/-- Claim C1: for every `ModelSystem` and every point `X` in its space,
`get_score(X)` evaluates the noiseless score at `X` and passes
`(X, score)` through the current noise model's `apply`, i.e.
`get_score(X) = noise_model.apply(X, score(X))`. -/
theorem get_score_eq_noise_model_apply {α σ : Type} (ms : ModelSystem α σ)
    (X : α) : ms.get_score X = ms.noise_model.apply X (ms.score X) := by
  simp [ModelSystem.get_score, NoiseModel.apply_eq_add_get_noise]

/-- Claim C2: `result_loss(result)` is the noiseless score at the
expected-minimum location extracted from the result, minus the stored
`true_min`, with no noise applied; the loss is negative whenever the
stored `true_min` overestimates the score at that location. -/
theorem result_loss_eq_score_minus_true_min {α σ : Type}
    (ms : ModelSystem α σ) (result : OptResult α) :
    ms.result_loss result
        = ms.score (expected_minimum result).1 - ms.true_min ∧
    (ms.score (expected_minimum result).1 < ms.true_min →
      ms.result_loss result < 0) := by
  constructor
  · rfl
  · intro h
    simpa [ModelSystem.result_loss] using sub_neg.mpr h

/-- Witness for C2 at a concrete system whose stored `true_min` (1)
overestimates the score (0) at the expected-minimum location. -/
theorem result_loss_eq_score_minus_true_min_witness :
    (⟨fun _ => 0, ⟨1, fun _ s => ([], s)⟩, .zero, 1, 1⟩
        : ModelSystem ℚ ℕ).result_loss ⟨0, 0⟩ < 0 :=
  (result_loss_eq_score_minus_true_min
    (⟨fun _ => 0, ⟨1, fun _ s => ([], s)⟩, .zero, 1, 1⟩ : ModelSystem ℚ ℕ)
    ⟨0, 0⟩).2 (by norm_num [expected_minimum])

/-- Claim C7: for every signal `s`, every context, and a multiplicative
noise model whose sampler constantly returns `m`,
`apply(context, s) = s * (1 + m)`. -/
theorem multiplicative_constant_apply {α : Type} (m : ℚ) (context : α)
    (s : ℚ) :
    (NoiseModel.multiplicative (fun _ => m) : NoiseModel α).apply context s
      = s * (1 + m) := rfl

/-- Claim C8: `DataDependentNoise` evaluates its selector on the context of
every `apply` call and delegates to the returned model; in particular the
selector `fun X => AdditiveNoise (sample = fun _ => X)` gives
`apply(X, s) = s + X` for every scalar `X` and signal `s`. -/
theorem data_dependent_apply_delegates {α : Type} :
    (∀ (noise_models : α → NoiseModel α) (X : α) (s : ℚ),
      (NoiseModel.dataDependent noise_models).apply X s
        = (noise_models X).apply X s) ∧
    (∀ X s : ℚ,
      (NoiseModel.dataDependent
          (fun X => NoiseModel.additive (fun _ => X))).apply X s = s + X) :=
  ⟨fun _ _ _ => rfl, fun _ _ => rfl⟩

/-- Claim C5: constructing the abstract `NoiseModel` capability directly
fails immediately at construction with `InstantiationError`, while every
concrete variant constructs successfully. -/
theorem abstract_noise_model_instantiation_fails {α : Type} :
    instantiateNoiseClass (NoiseClass.abstractNoiseModel : NoiseClass α)
        = .error .instantiationError ∧
    instantiateNoiseClass (NoiseClass.zeroNoise : NoiseClass α)
        = .ok .zero ∧
    (∀ noise_dist,
      instantiateNoiseClass (NoiseClass.additiveNoise noise_dist
          : NoiseClass α) = .ok (.additive noise_dist)) ∧
    (∀ noise_dist,
      instantiateNoiseClass (NoiseClass.multiplicativeNoise noise_dist
          : NoiseClass α) = .ok (.multiplicative noise_dist)) ∧
    (∀ noise_models,
      instantiateNoiseClass (NoiseClass.dataDependentNoise noise_models
          : NoiseClass α) = .ok (.dataDependent noise_models)) :=
  ⟨rfl, rfl, fun _ => rfl, fun _ => rfl, fun _ => rfl⟩

/-- Claim C6: `set_noise_model(spec)` re-parses `spec` and replaces the
stored noise model, changing nothing else: the result is exactly the old
system with only the `noise_model` field replaced (so score, space,
`true_min` and `true_max` are untouched and no bound is recomputed), and
a parse failure propagates unchanged. -/
theorem set_noise_model_only_replaces_noise_model {α σ : Type}
    (draw : ℚ → Unit → ℚ) (ms : ModelSystem α σ) (spec : NoiseSpec α) :
    ModelSystem.set_noise_model draw ms spec
        = (parse_noise_model draw spec).map
            (fun nm => { ms with noise_model := nm }) ∧
    (∀ nm : NoiseModel α,
      ({ ms with noise_model := nm } : ModelSystem α σ).score = ms.score ∧
      ({ ms with noise_model := nm } : ModelSystem α σ).space = ms.space ∧
      ({ ms with noise_model := nm } : ModelSystem α σ).true_min
          = ms.true_min ∧
      ({ ms with noise_model := nm } : ModelSystem α σ).true_max
          = ms.true_max) := by
  refine ⟨?_, fun nm => ⟨rfl, rfl, rfl, rfl⟩⟩
  cases h : parse_noise_model draw spec <;>
    simp [ModelSystem.set_noise_model, h, Except.map]

/-- Claim C3: `parse_noise_model` passes an already-constructed model
through unchanged; maps `"constant"` to Additive, `"proportional"` to
Multiplicative and `"zero"` to Zero with default parameters; constructs
the named variant from a mapping with a `model_type` key, passing the
extra keys through; and fails with `ConfigurationError` on any other
shape or unrecognized name. -/
theorem parse_noise_model_cases {α : Type} (draw : ℚ → Unit → ℚ) :
    (∀ m : NoiseModel α, parse_noise_model draw (.model m) = .ok m) ∧
    parse_noise_model draw (.name "constant" : NoiseSpec α)
        = .ok (.additive (draw 1)) ∧
    parse_noise_model draw (.name "proportional" : NoiseSpec α)
        = .ok (.multiplicative (draw (1/100))) ∧
    parse_noise_model draw (.name "zero" : NoiseSpec α) = .ok .zero ∧
    (∀ noise_size : Option ℚ,
      parse_noise_model draw (.mapping "constant" noise_size : NoiseSpec α)
          = .ok (.additive (draw (noise_size.getD 1))) ∧
      parse_noise_model draw
          (.mapping "proportional" noise_size : NoiseSpec α)
          = .ok (.multiplicative (draw (noise_size.getD (1/100)))) ∧
      parse_noise_model draw (.mapping "zero" noise_size : NoiseSpec α)
          = .ok .zero) ∧
    (∀ s : String, s ≠ "constant" → s ≠ "proportional" → s ≠ "zero" →
      parse_noise_model draw (.name s : NoiseSpec α)
          = .error .configurationError ∧
      ∀ noise_size : Option ℚ,
        parse_noise_model draw (.mapping s noise_size : NoiseSpec α)
            = .error .configurationError) ∧
    parse_noise_model draw (.other : NoiseSpec α)
        = .error .configurationError := by
  refine ⟨fun m => rfl, rfl, rfl, rfl, fun noise_size => ⟨rfl, rfl, rfl⟩,
    fun s h1 h2 h3 => ⟨?_, fun noise_size => ?_⟩, rfl⟩ <;>
    simp [parse_noise_model, h1, h2, h3]

/-- Witness for C3: an unrecognized name string is rejected with
`ConfigurationError`. -/
theorem parse_noise_model_cases_witness :
    parse_noise_model (fun _ _ => 0) (.name "gaussian" : NoiseSpec ℚ)
        = .error .configurationError :=
  ((parse_noise_model_cases (fun _ _ => 0)).2.2.2.2.2.1 "gaussian"
    (by decide) (by decide) (by decide)).1

/-- Claim C10: `result_loss` reads only the score function and `true_min`,
so it is independent of the installed noise model: two systems that agree
on everything except the noise model give the same loss, and in
particular the loss is unchanged across any successful
`set_noise_model` call. -/
theorem result_loss_independent_of_noise_model {α σ : Type}
    (ms₁ ms₂ : ModelSystem α σ) (result : OptResult α)
    (hscore : ms₁.score = ms₂.score) (hmin : ms₁.true_min = ms₂.true_min) :
    ms₁.result_loss result = ms₂.result_loss result ∧
    (∀ (draw : ℚ → Unit → ℚ) (spec : NoiseSpec α) (ms' : ModelSystem α σ),
      ModelSystem.set_noise_model draw ms₁ spec = .ok ms' →
      ms'.result_loss result = ms₁.result_loss result) := by
  constructor
  · simp [ModelSystem.result_loss, hscore, hmin]
  · intro draw spec ms' h
    cases hp : parse_noise_model draw spec with
    | error e =>
        simp [ModelSystem.set_noise_model, hp] at h
    | ok nm =>
        simp [ModelSystem.set_noise_model, hp] at h
        simp [← h, ModelSystem.result_loss]

/-- Witness for C10 at two concrete systems differing only in their noise
model, one obtained from the other by `set_noise_model`. -/
theorem result_loss_independent_of_noise_model_witness :
    (⟨fun _ => 2, ⟨1, fun _ s => ([], s)⟩, .zero, 1, 1⟩
        : ModelSystem ℚ ℕ).result_loss ⟨0, 0⟩
      = (⟨fun _ => 2, ⟨1, fun _ s => ([], s)⟩,
          .additive (fun _ => 5), 1, 1⟩
        : ModelSystem ℚ ℕ).result_loss ⟨0, 0⟩ :=
  (result_loss_independent_of_noise_model
    (⟨fun _ => 2, ⟨1, fun _ s => ([], s)⟩, .zero, 1, 1⟩ : ModelSystem ℚ ℕ)
    (⟨fun _ => 2, ⟨1, fun _ s => ([], s)⟩,
        .additive (fun _ => 5), 1, 1⟩ : ModelSystem ℚ ℕ)
    ⟨0, 0⟩ rfl rfl).1

/-- Claim C4: at construction, each bound the caller leaves unspecified is
estimated from one fresh Latin-hypercube draw of `10 * n_dims` points —
the noiseless score is taken at each point and `np.min` (for `true_min`)
or `np.max` (for `true_max`) of those scores is stored — while a
caller-supplied bound is stored as given with no sampling for it.  The
generator state records exactly how many draws were consumed. -/
theorem init_bounds_estimation {α σ : Type} (draw : ℚ → Unit → ℚ)
    (score : α → ℚ) (space : Space α σ) (spec : NoiseSpec α) (rng : σ)
    (nm : NoiseModel α) (h : parse_noise_model draw spec = .ok nm) :
    (∀ a b : ℚ,
      ModelSystem.init draw score space spec (some a) (some b) rng
        = .ok (⟨score, space, nm, a, b⟩, rng)) ∧
    (∀ b : ℚ,
      ModelSystem.init draw score space spec none (some b) rng
        = .ok (⟨score, space, nm,
            np_min (((space.lhs (space.n_dims * 10) rng).1).map score),
            b⟩, (space.lhs (space.n_dims * 10) rng).2)) ∧
    (∀ a : ℚ,
      ModelSystem.init draw score space spec (some a) none rng
        = .ok (⟨score, space, nm, a,
            np_max (((space.lhs (space.n_dims * 10) rng).1).map score)⟩,
            (space.lhs (space.n_dims * 10) rng).2)) ∧
    ModelSystem.init draw score space spec none none rng
        = .ok (⟨score, space, nm,
            np_min (((space.lhs (space.n_dims * 10) rng).1).map score),
            np_max (((space.lhs (space.n_dims * 10)
              ((space.lhs (space.n_dims * 10) rng).2)).1).map score)⟩,
            (space.lhs (space.n_dims * 10)
              ((space.lhs (space.n_dims * 10) rng).2)).2) := by
  refine ⟨fun a b => ?_, fun b => ?_, fun a => ?_, ?_⟩ <;>
    simp [ModelSystem.init, h]

/-- Witness for C4: caller-supplied bounds are stored as given and no
sampling happens for them. -/
theorem init_bounds_estimation_witness :
    ModelSystem.init (fun _ _ => 0) id
        (⟨1, fun n s => (List.replicate n 3, s + 1)⟩ : Space ℚ ℕ)
        (.name "zero") (some 5) (some 7) 0
      = .ok (⟨id, ⟨1, fun n s => (List.replicate n 3, s + 1)⟩,
          .zero, 5, 7⟩, 0) :=
  (init_bounds_estimation (fun _ _ => 0) id
    (⟨1, fun n s => (List.replicate n 3, s + 1)⟩ : Space ℚ ℕ)
    (.name "zero") 0 .zero rfl).1 5 7

/-- Claim C9: construction neither establishes nor checks
`true_min ≤ true_max`: when both bounds are estimated they come from two
independently drawn samples, so a sampler whose two draws see different
regions yields `true_min > true_max`; and caller-supplied bounds are
stored unvalidated, so supplying `true_min = 5, true_max = 3` also
yields a constructed system with `true_min > true_max`. -/
theorem init_no_bound_order_invariant :
    (∃ ms : ModelSystem ℚ ℕ, ∃ s' : ℕ,
      ModelSystem.init (fun _ _ => 0) id
        (⟨1, fun n s => (List.replicate n (if s = 0 then 1 else 0), s + 1)⟩
          : Space ℚ ℕ)
        (.name "zero") none none 0 = .ok (ms, s') ∧
      ms.true_max < ms.true_min) ∧
    (∃ ms : ModelSystem ℚ ℕ,
      ModelSystem.init (fun _ _ => 0) id
        (⟨1, fun n s => (List.replicate n 0, s)⟩ : Space ℚ ℕ)
        (.name "zero") (some 5) (some 3) 0 = .ok (ms, 0) ∧
      ms.true_max < ms.true_min) := by
  constructor
  · exact ⟨⟨id,
      ⟨1, fun n s => (List.replicate n (if s = 0 then 1 else 0), s + 1)⟩,
      .zero, 1, 0⟩, 2, by rfl, by norm_num⟩
  · exact ⟨⟨id, ⟨1, fun n s => (List.replicate n 0, s)⟩, .zero, 5, 3⟩,
      by rfl, by norm_num⟩

end GlycoOptimizer
